import Mathlib

/-!
Shallow embedding of the authentication/session core and the async endpoint
glue of the symbl-go-sdk repository.

Embedded source:
* `pkg/client` (src/unnamed/part_000): `Credentials`, `authResp`, `StatusError`,
  `New`, `NewWithCreds`, and the resilient dispatcher `Client.Do`.
* `pkg/api/async/v1/bookmarks.go`: `GetBookmarks` (error-propagation pattern
  shared by every endpoint operation).
* `pkg/api/async/v1/summaryui.go`: `GetSummaryUI` extension dispatch.

The network is modelled as an oracle: the outcome of the i-th underlying
`Transport.Do` call and of the k-th authentication round trip are inputs.
Wall-clock time is an integer parameter `now` measured in seconds.
-/

namespace Symbl

/-- Go constant `defaultAuthType = "application"` (src/unnamed/part_000). -/
def defaultAuthType : String := "application"

/-- Go constant `defaultAttemptsToReauth = 3` (src/unnamed/part_000). -/
def defaultAttemptsToReauth : Nat := 3

/-- Go constant `defaultDelayBetweenReauth = 2` seconds (src/unnamed/part_000). -/
def defaultDelayBetweenReauth : Int := 2

/-- `http.StatusUnauthorized`. -/
def StatusUnauthorized : Nat := 401

/-- `http.StatusOK`. -/
def StatusOK : Nat := 200

/-- The part of an HTTP response the embedded code branches on: its status
code (`e.Resp.StatusCode`).  The request method/URL carried by the Go
response only feed log messages and error text, never control flow. -/
structure Response where
  statusCode : Nat
deriving DecidableEq

/-- Go struct `Credentials` (src/unnamed/part_000): `Type`, `AppId`,
`AppSecret`.  The Go field `Type` is rendered `type` (Lean reserves `Type`). -/
structure Credentials where
  type : String
  AppId : String
  AppSecret : String
deriving DecidableEq

/-- Go struct `authResp` (src/unnamed/part_000): `AccessToken`, `ExpiresIn`
(seconds, Go `int`). -/
structure authResp where
  AccessToken : String
  ExpiresIn : Int
deriving DecidableEq

/-- `rest.AccessToken`: the bearer token installed via `SetAuthorization`,
with `ExpiresOn = time.Now().Add(time.Second * time.Duration(resp.ExpiresIn))`
modelled at second granularity. -/
structure AccessToken where
  AccessToken : String
  ExpiresOn : Int
deriving DecidableEq

/-- Go `error` values that flow through the embedded code.  Go's dynamic
type assertions (`err.(*rest.StatusError)`, `err.(*symbl.StatusError)`)
become constructor matches; the two StatusError types are distinct Go types
(`symbl.StatusError` merely embeds `*rest.StatusError`), so a value of one
never satisfies an assertion for the other. -/
inductive GoError where
  /-- `*rest.StatusError`: produced by the transport on a non-2xx response. -/
  | restStatus (resp : Response)
  /-- `*symbl.StatusError` (src/unnamed/part_000, lines 32-38): the wrapper
  type the endpoint glue asserts for.  Nothing in the repository constructs
  it. -/
  | symblStatus (resp : Response)
  /-- `validator.ValidationErrors` with the names of the violated fields. -/
  | validation (fields : List String)
  /-- `common.ErrInvalidInput`. -/
  | invalidInput
  /-- `common.ErrAuthFailure`. -/
  | authFailure
  /-- `ErrInvalidURIExtension`. -/
  | invalidURIExtension
  /-- any other error (network failure, serialization failure, ...). -/
  | other (msg : String)
deriving DecidableEq

/-- `true` exactly when the Go assertion `err.(*rest.StatusError)` would
succeed (`err` being `nil` when the argument is `none`). -/
def isRestStatusError : Option GoError → Bool
  | some (GoError.restStatus _) => true
  | _ => false

/-- `rest.Client` as far as the core observes it: the authorization token
installed by `SetAuthorization` (none before any call). -/
structure RestClient where
  auth : Option AccessToken
deriving DecidableEq

/-- Go struct `symbl.Client`: embedded `*rest.Client` plus the stored
`creds` kept for re-authentication. -/
structure Client where
  rest : RestClient
  creds : Credentials
deriving DecidableEq

/-- Outcome of the one authentication round trip `restClient.Do(ctx, req,
&resp)` in `NewWithCreds`: either a transport error or a decoded
`authResp`. -/
inductive AuthNet where
  | failure (e : GoError)
  | success (resp : authResp)

/-- Hex digit used by the JSON `\u00XX` escape. -/
def hexDigit (n : Nat) : Char :=
  if n < 10 then Char.ofNat (48 + n) else Char.ofNat (87 + n)

/-- Per-character JSON string escaping as `encoding/json` performs it
(quotes, backslash, the common control characters, and the HTML-escaped
`<`, `>`, `&`). -/
def escapeChar (c : Char) : List Char :=
  if c = '"' then ['\\', '"']
  else if c = '\\' then ['\\', '\\']
  else if c = '\n' then ['\\', 'n']
  else if c = '\r' then ['\\', 'r']
  else if c = '\t' then ['\\', 't']
  else if c = '<' then ['\\', 'u', '0', '0', '3', 'c']
  else if c = '>' then ['\\', 'u', '0', '0', '3', 'e']
  else if c = '&' then ['\\', 'u', '0', '0', '2', '6']
  else if c.toNat < 32 then
    ['\\', 'u', '0', '0', hexDigit (c.toNat / 16), hexDigit (c.toNat % 16)]
  else [c]

/-- JSON rendering of a Go string value, quotes included. -/
def jsonString (s : String) : String :=
  "\"" ++ String.mk (s.toList.flatMap escapeChar) ++ "\""

/-- `json.Marshal` of `Credentials`: Go serializes exported struct fields in
declaration order under their JSON tags `type`, `appId`, `appSecret`. -/
def jsonOfCredentials (creds : Credentials) : String :=
  "\x7b\"type\":" ++ jsonString creds.type ++
    ",\"appId\":" ++ jsonString creds.AppId ++
    ",\"appSecret\":" ++ jsonString creds.AppSecret ++ "\x7d"

/-- The fields of `Credentials` that violate their `validate:"required"`
tags: `go-playground/validator.v9` fails `required` exactly on the zero
value, i.e. the empty string. -/
def missingCredentialFields (creds : Credentials) : List String :=
  (if creds.AppId = "" then ["AppId"] else []) ++
    (if creds.AppSecret = "" then ["AppSecret"] else [])

/-- What a constructor call did: its result, how many network calls it
issued, and the JSON body it POSTed to the authentication endpoint (none
when it never reached the network). -/
structure AuthTrace where
  result : Except GoError Client
  netCalls : Nat
  body : Option String

/-- `NewWithCreds` (src/unnamed/part_000, lines 96-166): validate the
credentials, default `Type` to `"application"`, marshal them, POST once to
the fixed authentication endpoint, reject an empty `accessToken`, and on
success install the bearer token into a fresh rest client.
`json.Marshal` of a struct of strings and `http.NewRequestWithContext` with
the constant method/URI cannot fail and have no error branch here. -/
def NewWithCreds (creds : Credentials) (net : AuthNet) (now : Int) : AuthTrace :=
  if missingCredentialFields creds ≠ [] then
    ⟨Except.error (GoError.validation (missingCredentialFields creds)), 0, none⟩
  else
    let creds := if creds.type = "" then { creds with type := defaultAuthType } else creds
    let jsonStr := jsonOfCredentials creds
    match net with
    | AuthNet.failure e => ⟨Except.error e, 1, some jsonStr⟩
    | AuthNet.success resp =>
      if resp.AccessToken = "" then
        ⟨Except.error GoError.authFailure, 1, some jsonStr⟩
      else
        ⟨Except.ok ⟨⟨some ⟨resp.AccessToken, now + resp.ExpiresIn⟩⟩, creds⟩, 1, some jsonStr⟩

/-- `New` (src/unnamed/part_000, lines 61-84): read `APP_ID` and
`APP_SECRET` from the environment (`os.Getenv` yields `""` when unset),
fail with `common.ErrInvalidInput` if either is empty, else delegate to
`NewWithCreds` with a `Credentials` whose `Type` is the zero value. -/
def New (appIdEnv appSecretEnv : String) (net : AuthNet) (now : Int) : AuthTrace :=
  if appIdEnv = "" then ⟨Except.error GoError.invalidInput, 0, none⟩
  else if appSecretEnv = "" then ⟨Except.error GoError.invalidInput, 0, none⟩
  else NewWithCreds ⟨"", appIdEnv, appSecretEnv⟩ net now

/-- The environment a dispatcher `Do` call runs against: the outcome of the
i-th underlying `Transport.Do` (`c.Client.Do`) call (`none` = success with
`resBody` populated), the outcome of the k-th authentication round trip,
and the current time in seconds. -/
structure DoEnv where
  transport : Nat → Option GoError
  auth : Nat → AuthNet
  now : Int

/-- Observable trace of one dispatcher `Do` call: the returned error
(`none` = success), the session state when it returns, the number of
underlying `Transport.Do` attempts, the number of authentication attempts
(`NewWithCreds` invocations), and the sleeps performed, each recorded as
(attempt index it precedes, seconds slept). -/
structure DoTrace where
  result : Option GoError
  client : Client
  attempts : Nat
  authCalls : Nat
  sleeps : List (Nat × Int)
deriving DecidableEq

/-- The values the Go loop counter `i` takes:
`for i := 1; i <= defaultAttemptsToReauth; i++`. -/
def attemptIndices : List Nat :=
  (List.range defaultAttemptsToReauth).map (fun k => k + 1)

/-- One-to-one rendering of the body of `Client.Do`
(src/unnamed/part_000, lines 169-205), iterated over the remaining loop
indices.  Each iteration: sleep `defaultDelayBetweenReauth` when `i > 1`,
run the request, then branch on the Go assertion
`err.(*rest.StatusError)` — a 401 triggers `NewWithCreds(ctx, *c.creds)`
(a failed re-auth returns that error at once; a successful one replaces
the embedded rest client and continues), any other StatusError just
continues the loop, and everything else (`nil` included) is returned
immediately.  When the indices run out the last observed error is
returned. -/
def doLoop (env : DoEnv) : List Nat → Client → Option GoError → Nat → Nat →
    List (Nat × Int) → DoTrace
  | [], c, lastErr, attempts, authCalls, sleeps =>
    ⟨lastErr, c, attempts, authCalls, sleeps⟩
  | i :: is, c, _lastErr, attempts, authCalls, sleeps =>
    let sleeps' := if 1 < i then sleeps ++ [(i, defaultDelayBetweenReauth)] else sleeps
    let err := env.transport i
    match err with
    | some (GoError.restStatus resp) =>
      if resp.statusCode = StatusUnauthorized then
        match (NewWithCreds c.creds (env.auth (authCalls + 1)) env.now).result with
        | Except.error reauthErr =>
          ⟨some reauthErr, c, attempts + 1, authCalls + 1, sleeps'⟩
        | Except.ok newClient =>
          doLoop env is { c with rest := newClient.rest } err (attempts + 1)
            (authCalls + 1) sleeps'
      else
        doLoop env is c err (attempts + 1) authCalls sleeps'
    | _ => ⟨err, c, attempts + 1, authCalls, sleeps'⟩

/-- The dispatcher `Client.Do` (src/unnamed/part_000): run the bounded
retry loop starting from `i = 1` with `var err error` zero-valued. -/
def Do (c : Client) (env : DoEnv) : DoTrace :=
  doLoop env attemptIndices c none 0 0 []

/-- Result of an endpoint operation as far as error propagation is
concerned: `(&result, nil)` collapses to `ok`. -/
inductive EndpointOutcome where
  | ok
  | err (e : GoError)
deriving DecidableEq

/-- `Client.GetBookmarks` (src/pkg/api/async/v1/bookmarks.go, lines 22-63):
reject an empty conversationId, issue the request through the dispatcher,
and propagate the error only when the Go assertion
`err.(*symbl.StatusError)` succeeds with a non-200 status; every other
outcome (including a non-nil error of any other type) reaches
`return &result, nil`. -/
def GetBookmarks (c : Client) (env : DoEnv) (conversationId : String) :
    EndpointOutcome :=
  if conversationId = "" then EndpointOutcome.err GoError.invalidInput
  else
    match (Do c env).result with
    | some (GoError.symblStatus resp) =>
      if resp.statusCode ≠ StatusOK then
        EndpointOutcome.err (GoError.symblStatus resp)
      else EndpointOutcome.ok
    | _ => EndpointOutcome.ok

/-- Modelled from the spec: constant `common.AudioTypeMP3` of
`pkg/api/common` (not under src/); the claim names it "the mp3 audio-type
constant". -/
def AudioTypeMP3 : String := "mp3"

/-- Modelled from the spec: constant `common.AudioTypeMpeg` of
`pkg/api/common` (not under src/). -/
def AudioTypeMpeg : String := "mpeg"

/-- Modelled from the spec: constant `common.AudioTypeWav` of
`pkg/api/common` (not under src/). -/
def AudioTypeWav : String := "wav"

/-- Modelled from the spec: `interfaces.TextSummaryRequest` as constructed
in summaryui.go (field `Name`). -/
structure TextSummaryRequest where
  Name : String
deriving DecidableEq

/-- Modelled from the spec: `interfaces.AudioSummaryRequest` as constructed
in summaryui.go (fields `Name`, `AudioURL`). -/
structure AudioSummaryRequest where
  Name : String
  AudioURL : String
deriving DecidableEq

/-- Modelled from the spec: `interfaces.VideoSummaryRequest` as constructed
in summaryui.go (fields `Name`, `VideoURL`). -/
structure VideoSummaryRequest where
  Name : String
  VideoURL : String
deriving DecidableEq

/-- Which return `GetSummaryUI` takes, with the request it builds.
`parseFailed` is the `return nil, err` branch after a failed `url.Parse`
(summaryui.go, lines 42-46). -/
inductive SummaryUIDispatch where
  | invalidInput
  | parseFailed (e : GoError)
  | invalidExtension
  | text (request : TextSummaryRequest)
  | audio (request : AudioSummaryRequest)
  | video (request : VideoSummaryRequest)
deriving DecidableEq

/-- `pos := strings.LastIndex(u.Path, ".")` followed by
`extension := u.Path[pos+1:]`: the characters after the last dot, or `none`
when the path has no dot (`pos == -1`). -/
def lastDotSuffix (s : String) : Option String :=
  if s.toList.contains '.' then
    some (String.mk ((s.toList.reverse.takeWhile (fun c => c != '.')).reverse))
  else none

/-- `Client.GetSummaryUI` (src/pkg/api/async/v1/summaryui.go, lines 23-77)
reduced to its dispatch decision.  The call to the Go stdlib
`url.Parse(uri)` is an oracle input, like the transport: `parse` is its
outcome, either the parse error or the parsed `u.Path` (Go's decoded path
component — empty for an opaque URI such as `mailto:foo.mp3`).
Empty conversationId is rejected; an empty uri goes to `GetTextSummaryUI`
with the `"verbose-text-summary"` request; a failed parse returns that
error; otherwise the extension after the last dot of `u.Path` is examined
by a Go `switch` whose `mp3` and `mpeg` cases have empty bodies (Go
`switch` does not fall through, so they leave the switch and reach the
video branch); only `wav` builds the `"audio-summary"` request for
`GetAudioSummaryUI`, and everything else — `mp3` and `mpeg` included —
builds the `"video-summary"` request for `GetVideoSummaryUI`. -/
def GetSummaryUI (parse : Except GoError String) (conversationId uri : String) :
    SummaryUIDispatch :=
  if conversationId = "" then SummaryUIDispatch.invalidInput
  else if uri.length = 0 then
    SummaryUIDispatch.text ⟨"verbose-text-summary"⟩
  else
    match parse with
    | Except.error e => SummaryUIDispatch.parseFailed e
    | Except.ok path =>
      match lastDotSuffix path with
      | none => SummaryUIDispatch.invalidExtension
      | some extension =>
        if extension = AudioTypeMP3 then
          SummaryUIDispatch.video ⟨"video-summary", uri⟩
        else if extension = AudioTypeMpeg then
          SummaryUIDispatch.video ⟨"video-summary", uri⟩
        else if extension = AudioTypeWav then
          SummaryUIDispatch.audio ⟨"audio-summary", uri⟩
        else
          SummaryUIDispatch.video ⟨"video-summary", uri⟩

/-- A string of length zero is the empty string. -/
theorem string_length_zero {s : String} (h : s.length = 0) : s = "" := by
  cases s with
  | mk data =>
    simp [String.length] at h
    subst h
    rfl

/-- The Go loop counter runs over exactly the indices 1, 2, 3. -/
theorem attemptIndices_eq : attemptIndices = [1, 2, 3] := rfl

/-- A successful authentication round trip with valid credentials and a
non-empty token yields the client holding that token. -/
theorem NewWithCreds_ok (creds : Credentials) (t : String) (n now : Int)
    (hid : creds.AppId ≠ "") (hsec : creds.AppSecret ≠ "") (ht : t ≠ "") :
    NewWithCreds creds (AuthNet.success ⟨t, n⟩) now =
      ⟨Except.ok ⟨⟨some ⟨t, now + n⟩⟩,
          if creds.type = "" then { creds with type := defaultAuthType } else creds⟩, 1,
        some (jsonOfCredentials
          (if creds.type = "" then { creds with type := defaultAuthType } else creds))⟩ := by
  simp [NewWithCreds, missingCredentialFields, hid, hsec, ht]

/-- Claim C1: when the first underlying `Transport.Do` attempt returns a
401 StatusError and re-authentication with the session's stored
`Credentials` succeeds with a fresh token, the dispatcher `Do` installs
that token into the session, retries the same request, and on a successful
retry returns the success, having made exactly 2 underlying `Transport.Do`
attempts and exactly 1 authentication attempt. -/
theorem claim1_reauth_retry_success (env : DoEnv) (c : Client) (t : String) (n : Int)
    (h1 : env.transport 1 = some (GoError.restStatus ⟨401⟩))
    (h2 : env.transport 2 = none)
    (hauth : env.auth 1 = AuthNet.success ⟨t, n⟩)
    (ht : t ≠ "") (hid : c.creds.AppId ≠ "") (hsec : c.creds.AppSecret ≠ "") :
    Do c env = ⟨none, { c with rest := ⟨some ⟨t, env.now + n⟩⟩ }, 2, 1,
      [(2, defaultDelayBetweenReauth)]⟩ := by
  have hok := NewWithCreds_ok c.creds t n env.now hid hsec ht
  simp [Do, attemptIndices_eq, doLoop, h1, h2, hauth, hok, StatusUnauthorized]

/-- Witness for claim C1: a 401 on attempt 1, re-authentication minting
token "tok" valid 60 s at time 100, and a successful retry. -/
theorem claim1_reauth_retry_success_witness :
    Do ⟨⟨none⟩, ⟨"", "id", "secret"⟩⟩
        ⟨fun i => if i = 1 then some (GoError.restStatus ⟨401⟩) else none,
          fun _ => AuthNet.success ⟨"tok", 60⟩, 100⟩ =
      ⟨none, ⟨⟨some ⟨"tok", 160⟩⟩, ⟨"", "id", "secret"⟩⟩, 2, 1,
        [(2, defaultDelayBetweenReauth)]⟩ :=
  claim1_reauth_retry_success
    ⟨fun i => if i = 1 then some (GoError.restStatus ⟨401⟩) else none,
      fun _ => AuthNet.success ⟨"tok", 60⟩, 100⟩
    ⟨⟨none⟩, ⟨"", "id", "secret"⟩⟩ "tok" 60 (by decide) (by decide) rfl
    (by decide) (by decide) (by decide)

/-- Claim C2: when every underlying `Transport.Do` attempt returns a
StatusError with a status other than 401, the dispatcher `Do` retries the
identical request without re-authenticating, makes exactly
`defaultAttemptsToReauth = 3` attempts with a
`defaultDelayBetweenReauth = 2` second sleep before attempts 2 and 3 and
none before attempt 1, returns the last observed StatusError, and performs
zero authentication attempts. -/
theorem claim2_non401_retries (env : DoEnv) (c : Client)
    (h : ∀ i, 1 ≤ i → i ≤ defaultAttemptsToReauth →
      ∃ code, env.transport i = some (GoError.restStatus ⟨code⟩) ∧
        code ≠ StatusUnauthorized) :
    Do c env = ⟨env.transport defaultAttemptsToReauth, c, defaultAttemptsToReauth, 0,
      [(2, defaultDelayBetweenReauth), (3, defaultDelayBetweenReauth)]⟩ := by
  obtain ⟨c1, h1, n1⟩ := h 1 (by decide) (by decide)
  obtain ⟨c2, h2, n2⟩ := h 2 (by decide) (by decide)
  obtain ⟨c3, h3, n3⟩ := h 3 (by decide) (by decide)
  simp [StatusUnauthorized] at n1 n2 n3
  simp [Do, attemptIndices_eq, doLoop, h1, h2, h3, n1, n2, n3, StatusUnauthorized,
    defaultAttemptsToReauth]

/-- Witness for claim C2: three consecutive HTTP 500 StatusErrors. -/
theorem claim2_non401_retries_witness :
    Do ⟨⟨none⟩, ⟨"", "id", "secret"⟩⟩
        ⟨fun _ => some (GoError.restStatus ⟨500⟩),
          fun _ => AuthNet.failure GoError.invalidInput, 0⟩ =
      ⟨some (GoError.restStatus ⟨500⟩), ⟨⟨none⟩, ⟨"", "id", "secret"⟩⟩, 3, 0,
        [(2, defaultDelayBetweenReauth), (3, defaultDelayBetweenReauth)]⟩ :=
  claim2_non401_retries
    ⟨fun _ => some (GoError.restStatus ⟨500⟩),
      fun _ => AuthNet.failure GoError.invalidInput, 0⟩
    ⟨⟨none⟩, ⟨"", "id", "secret"⟩⟩
    (fun _ _ _ => ⟨500, rfl, by decide⟩)

/-- Claim C3: when the underlying `Transport.Do` attempt returns a 401
StatusError and the subsequent re-authentication call fails, the
dispatcher `Do` returns that re-authentication error immediately, with
exactly 1 underlying `Transport.Do` attempt made and no further retries. -/
theorem claim3_reauth_failure_fatal (env : DoEnv) (c : Client) (e : GoError)
    (h1 : env.transport 1 = some (GoError.restStatus ⟨401⟩))
    (hre : (NewWithCreds c.creds (env.auth 1) env.now).result = Except.error e) :
    Do c env = ⟨some e, c, 1, 1, []⟩ := by
  simp [Do, attemptIndices_eq, doLoop, h1, hre, StatusUnauthorized]

/-- Witness for claim C3: a 401 on attempt 1 with an unreachable
authentication endpoint. -/
theorem claim3_reauth_failure_fatal_witness :
    Do ⟨⟨none⟩, ⟨"", "id", "secret"⟩⟩
        ⟨fun _ => some (GoError.restStatus ⟨401⟩),
          fun _ => AuthNet.failure (GoError.other "unreachable"), 0⟩ =
      ⟨some (GoError.other "unreachable"), ⟨⟨none⟩, ⟨"", "id", "secret"⟩⟩, 1, 1, []⟩ :=
  claim3_reauth_failure_fatal
    ⟨fun _ => some (GoError.restStatus ⟨401⟩),
      fun _ => AuthNet.failure (GoError.other "unreachable"), 0⟩
    ⟨⟨none⟩, ⟨"", "id", "secret"⟩⟩ (GoError.other "unreachable") rfl rfl

/-- Claim C4: when the first underlying `Transport.Do` attempt returns
anything the Go assertion `err.(*rest.StatusError)` rejects — a non-nil
error of another type such as a network failure, or `nil` — the dispatcher
`Do` returns that outcome immediately after exactly 1 attempt, with no
re-authentication and no retry. -/
theorem claim4_non_status_error_immediate (env : DoEnv) (c : Client)
    (h : isRestStatusError (env.transport 1) = false) :
    Do c env = ⟨env.transport 1, c, 1, 0, []⟩ := by
  cases henv : env.transport 1 with
  | none => simp [Do, attemptIndices_eq, doLoop, henv]
  | some e =>
    cases e <;> simp_all [Do, attemptIndices_eq, doLoop, isRestStatusError]

/-- Witness for claim C4: a connection-refused failure on attempt 1. -/
theorem claim4_non_status_error_immediate_witness :
    Do ⟨⟨none⟩, ⟨"", "id", "secret"⟩⟩
        ⟨fun _ => some (GoError.other "connection refused"),
          fun _ => AuthNet.failure GoError.invalidInput, 0⟩ =
      ⟨some (GoError.other "connection refused"), ⟨⟨none⟩, ⟨"", "id", "secret"⟩⟩, 1, 0, []⟩ :=
  claim4_non_status_error_immediate
    ⟨fun _ => some (GoError.other "connection refused"),
      fun _ => AuthNet.failure GoError.invalidInput, 0⟩
    ⟨⟨none⟩, ⟨"", "id", "secret"⟩⟩ rfl

/-- Claim C5 (failing input): the dispatcher `Do` returns the non-nil,
non-StatusError error "connection refused", yet `GetBookmarks` returns a
success outcome — the `err.(*symbl.StatusError)` assertion fails for every
error the dispatcher actually produces, so the error is swallowed,
contrary to the claim that every non-nil dispatcher error is propagated. -/
theorem claim5_error_swallowed :
    (Do ⟨⟨none⟩, ⟨"", "id", "secret"⟩⟩
        ⟨fun _ => some (GoError.other "connection refused"),
          fun _ => AuthNet.failure GoError.invalidInput, 0⟩).result =
      some (GoError.other "connection refused") ∧
    GetBookmarks ⟨⟨none⟩, ⟨"", "id", "secret"⟩⟩
        ⟨fun _ => some (GoError.other "connection refused"),
          fun _ => AuthNet.failure GoError.invalidInput, 0⟩ "cid" =
      EndpointOutcome.ok :=
  ⟨by decide, by decide⟩

/-- Claim C6: a structurally valid authentication response whose
`accessToken` field is the empty string makes the constructor fail with
`common.ErrAuthFailure`, so no client is created. -/
theorem claim6_empty_token_auth_failure (creds : Credentials) (n now : Int)
    (hid : creds.AppId ≠ "") (hsec : creds.AppSecret ≠ "") :
    (NewWithCreds creds (AuthNet.success ⟨"", n⟩) now).result =
      Except.error GoError.authFailure := by
  simp [NewWithCreds, missingCredentialFields, hid, hsec]

/-- Witness for claim C6: valid credentials, HTTP 200 response carrying an
empty token. -/
theorem claim6_empty_token_auth_failure_witness :
    (NewWithCreds ⟨"", "id", "secret"⟩ (AuthNet.success ⟨"", 60⟩) 0).result =
      Except.error GoError.authFailure :=
  claim6_empty_token_auth_failure ⟨"", "id", "secret"⟩ 60 0 (by decide) (by decide)

/-- Claim C7: a `Credentials` value missing the account id or the account
secret makes `NewWithCreds` fail with a `ValidationError` naming the
violated fields, and `New` with either environment input absent fails with
`common.ErrInvalidInput`; in both cases zero network calls are issued. -/
theorem claim7_missing_credentials_no_network :
    (∀ (creds : Credentials) (net : AuthNet) (now : Int),
        creds.AppId = "" ∨ creds.AppSecret = "" →
        ∃ fs, fs ≠ [] ∧
          NewWithCreds creds net now =
            ⟨Except.error (GoError.validation fs), 0, none⟩) ∧
    (∀ (appIdEnv appSecretEnv : String) (net : AuthNet) (now : Int),
        appIdEnv = "" ∨ appSecretEnv = "" →
        New appIdEnv appSecretEnv net now =
          ⟨Except.error GoError.invalidInput, 0, none⟩) := by
  constructor
  · intro creds net now h
    have hne : missingCredentialFields creds ≠ [] := by
      rcases h with h | h <;> simp [missingCredentialFields, h]
    exact ⟨missingCredentialFields creds, hne, by simp [NewWithCreds, hne]⟩
  · intro appIdEnv appSecretEnv net now h
    rcases h with h | h
    · simp [New, h]
    · by_cases ha : appIdEnv = "" <;> simp [New, ha, h]

/-- Witness for claim C7: an empty `AppId` passed explicitly, and an unset
`APP_ID` environment input. -/
theorem claim7_missing_credentials_no_network_witness :
    (∃ fs, fs ≠ [] ∧
      NewWithCreds ⟨"", "", "secret"⟩ (AuthNet.failure GoError.invalidInput) 0 =
        ⟨Except.error (GoError.validation fs), 0, none⟩) ∧
    New "" "secret" (AuthNet.failure GoError.invalidInput) 0 =
      ⟨Except.error GoError.invalidInput, 0, none⟩ :=
  ⟨claim7_missing_credentials_no_network.1 ⟨"", "", "secret"⟩
      (AuthNet.failure GoError.invalidInput) 0 (Or.inl rfl),
    claim7_missing_credentials_no_network.2 "" "secret"
      (AuthNet.failure GoError.invalidInput) 0 (Or.inl rfl)⟩

/-- Claim C8: a successful authentication whose response carries a
non-empty `accessToken` t and `expiresIn` n seconds installs into the
session a bearer token with value exactly t and expiry exactly now + n
seconds. -/
theorem claim8_token_value_and_expiry (creds : Credentials) (t : String) (n now : Int)
    (hid : creds.AppId ≠ "") (hsec : creds.AppSecret ≠ "") (ht : t ≠ "") :
    ∃ c : Client,
      (NewWithCreds creds (AuthNet.success ⟨t, n⟩) now).result = Except.ok c ∧
      c.rest.auth = some ⟨t, now + n⟩ := by
  rw [NewWithCreds_ok creds t n now hid hsec ht]
  exact ⟨_, rfl, rfl⟩

/-- Witness for claim C8: token "abc" with expiresIn 60 minted at time 5
expires at 65. -/
theorem claim8_token_value_and_expiry_witness :
    ∃ c : Client,
      (NewWithCreds ⟨"", "id", "secret"⟩ (AuthNet.success ⟨"abc", 60⟩) 5).result =
        Except.ok c ∧
      c.rest.auth = some ⟨"abc", 65⟩ :=
  claim8_token_value_and_expiry ⟨"", "id", "secret"⟩ "abc" 60 5
    (by decide) (by decide) (by decide)

/-- Claim C9: for credentials whose `Type` field is left empty, the JSON
body POSTed to the authentication endpoint is the serialization of the
credentials with `type` equal to "application" alongside the given `appId`
and `appSecret`. -/
theorem claim9_defaulted_type_in_body (creds : Credentials) (net : AuthNet) (now : Int)
    (htype : creds.type = "") (hid : creds.AppId ≠ "") (hsec : creds.AppSecret ≠ "") :
    (NewWithCreds creds net now).body =
      some (jsonOfCredentials ⟨"application", creds.AppId, creds.AppSecret⟩) := by
  cases net with
  | failure e =>
    simp [NewWithCreds, missingCredentialFields, hid, hsec, htype, defaultAuthType]
  | success resp =>
    by_cases hAT : resp.AccessToken = "" <;>
      simp [NewWithCreds, missingCredentialFields, hid, hsec, htype, hAT, defaultAuthType]

/-- Witness for claim C9: credentials with empty `Type`; the body carries
`type` "application" with the given id and secret. -/
theorem claim9_defaulted_type_in_body_witness :
    (NewWithCreds ⟨"", "myid", "mysecret"⟩ (AuthNet.failure GoError.invalidInput) 7).body =
      some (jsonOfCredentials ⟨"application", "myid", "mysecret"⟩) :=
  claim9_defaulted_type_in_body ⟨"", "myid", "mysecret"⟩
    (AuthNet.failure GoError.invalidInput) 7 rfl (by decide) (by decide)

/-- Claim C10: for a non-empty URI that `url.Parse` accepts with a path
whose extension is the mp3 or mpeg audio-type constant, `GetSummaryUI`
dispatches a video-summary request (the corresponding switch cases have
empty bodies and never reach the audio branch); only the wav extension
dispatches an audio-summary request. -/
theorem claim10_mp3_mpeg_dispatch_video (conversationId uri path : String)
    (hconv : conversationId ≠ "") (huri : uri ≠ "") :
    ((lastDotSuffix path = some AudioTypeMP3 ∨
        lastDotSuffix path = some AudioTypeMpeg) →
      GetSummaryUI (Except.ok path) conversationId uri =
        SummaryUIDispatch.video ⟨"video-summary", uri⟩) ∧
    (lastDotSuffix path = some AudioTypeWav →
      GetSummaryUI (Except.ok path) conversationId uri =
        SummaryUIDispatch.audio ⟨"audio-summary", uri⟩) := by
  have hlen : uri.length ≠ 0 := fun h => huri (string_length_zero h)
  constructor
  · rintro (hext | hext) <;>
      simp [GetSummaryUI, hconv, hlen, hext, AudioTypeMP3, AudioTypeMpeg, AudioTypeWav]
  · intro hext
    simp [GetSummaryUI, hconv, hlen, hext, AudioTypeMP3, AudioTypeMpeg, AudioTypeWav]

/-- Witness for claim C10: an mp3 URL (parsed path "/media.mp3") dispatches
video-summary, a wav URL dispatches audio-summary. -/
theorem claim10_mp3_mpeg_dispatch_video_witness :
    GetSummaryUI (Except.ok "/media.mp3") "cid" "https://example.com/media.mp3" =
      SummaryUIDispatch.video ⟨"video-summary", "https://example.com/media.mp3"⟩ ∧
    GetSummaryUI (Except.ok "/media.wav") "cid" "https://example.com/media.wav" =
      SummaryUIDispatch.audio ⟨"audio-summary", "https://example.com/media.wav"⟩ :=
  ⟨(claim10_mp3_mpeg_dispatch_video "cid" "https://example.com/media.mp3" "/media.mp3"
      (by decide) (by decide)).1 (Or.inl (by decide)),
    (claim10_mp3_mpeg_dispatch_video "cid" "https://example.com/media.wav" "/media.wav"
      (by decide) (by decide)).2 (by decide)⟩

end Symbl
